import Mathlib

/-!
Verification of the protocol-resilience core of the ytextract library.

The Rust source is embedded shallowly:

* machine bytes are `Nat` values (every byte of a Rust `Vec<u8>` is `< 256`,
  but none of the verified properties depend on that bound);
* a Rust function that can panic (`expect`, `unwrap`, slice indexing,
  `unimplemented!`, `assert!`) is embedded as an `Option`-valued function,
  `none` standing for the panic;
* a Rust `Result<T, E>` is embedded as `Except E T`;
* the regex engine used by `CipherPlan::from_body` (the `regex` crate) is an
  external collaborator: its three capture operations are abstracted as an
  oracle record, while the splitting, filtering, classification and error
  selection around them are embedded directly;
* the HTTP transport is abstracted as an outcome oracle indexed by attempt
  number, while the retry loop around it is embedded directly.
-/

namespace Ytextract

/-! ## Cipher interpreter (src/player.rs)

`CipherPlan` holds the ordered operations extracted from the player script:
`ReverseCipher` (`input.reverse()`), `SpliceCipher { index }`
(`input.drain(..index)`) and `SwapCipher { index }` (`input.swap(0, index)`).
-/

/-- The three cipher operation kinds of src/player.rs
(`ReverseCipher`, `SpliceCipher`, `SwapCipher`). -/
inductive CipherOp where
  | reverse : CipherOp
  | splice (index : Nat) : CipherOp
  | swap (index : Nat) : CipherOp
deriving DecidableEq, Repr

/-- `Cipher::decipher` for each operation. `Vec::drain(..index)` panics when
`index` exceeds the length; `Vec::swap(0, index)` panics when `0` or `index`
is out of bounds (equivalently when `index ≥ len`, as `index < len` forces
`len > 0`). A panic is `none`. -/
def CipherOp.decipher : CipherOp → List Nat → Option (List Nat)
  | .reverse, l => some l.reverse
  | .splice index, l => if index ≤ l.length then some (l.drop index) else none
  | .swap index, l =>
      if index < l.length then
        some ((l.set 0 (l.getD index 0)).set index (l.getD 0 0))
      else none

/-- The total companion of `CipherOp.decipher`: the value produced when the
operation does not panic. -/
def CipherOp.applyT : CipherOp → List Nat → List Nat
  | .reverse, l => l.reverse
  | .splice index, l => l.drop index
  | .swap index, l => (l.set 0 (l.getD index 0)).set index (l.getD 0 0)

/-- The in-bounds condition under which `CipherOp.decipher` does not panic. -/
def CipherOp.inBounds : CipherOp → List Nat → Bool
  | .reverse, _ => true
  | .splice index, l => decide (index ≤ l.length)
  | .swap index, l => decide (index < l.length)

/-- The byte-level part of `CipherPlan::run`: apply the operations strictly in
extracted order, every step threaded through `Option` because each step can
panic. -/
def CipherPlan.runBytes : List CipherOp → List Nat → Option (List Nat)
  | [], l => some l
  | c :: cs, l => (c.decipher l).bind (CipherPlan.runBytes cs)

/-- A byte sequence is accepted by Rust `String::from_utf8` iff it is valid
UTF-8: this is the standard definition (continuation bytes `0x80..=0xBF`,
no overlong forms, no surrogates, maximum `U+10FFFF`). -/
def utf8Cont (b : Nat) : Bool := decide (0x80 ≤ b) && decide (b ≤ 0xBF)

/-- UTF-8 validity of a byte sequence, as checked by `String::from_utf8`. -/
def utf8Valid : List Nat → Bool
  | [] => true
  | b :: rest =>
    if b ≤ 0x7F then utf8Valid rest
    else if 0xC2 ≤ b ∧ b ≤ 0xDF then
      match rest with
      | c :: r => utf8Cont c && utf8Valid r
      | [] => false
    else if b = 0xE0 then
      match rest with
      | c :: d :: r => decide (0xA0 ≤ c) && decide (c ≤ 0xBF) && utf8Cont d && utf8Valid r
      | _ => false
    else if (0xE1 ≤ b ∧ b ≤ 0xEC) ∨ b = 0xEE ∨ b = 0xEF then
      match rest with
      | c :: d :: r => utf8Cont c && utf8Cont d && utf8Valid r
      | _ => false
    else if b = 0xED then
      match rest with
      | c :: d :: r => decide (0x80 ≤ c) && decide (c ≤ 0x9F) && utf8Cont d && utf8Valid r
      | _ => false
    else if b = 0xF0 then
      match rest with
      | c :: d :: e :: r =>
          decide (0x90 ≤ c) && decide (c ≤ 0xBF) && utf8Cont d && utf8Cont e && utf8Valid r
      | _ => false
    else if 0xF1 ≤ b ∧ b ≤ 0xF3 then
      match rest with
      | c :: d :: e :: r => utf8Cont c && utf8Cont d && utf8Cont e && utf8Valid r
      | _ => false
    else if b = 0xF4 then
      match rest with
      | c :: d :: e :: r =>
          decide (0x80 ≤ c) && decide (c ≤ 0x8F) && utf8Cont d && utf8Cont e && utf8Valid r
      | _ => false
    else false

/-- `CipherPlan::run`: run every operation in order on the signature bytes,
then `String::from_utf8(..).expect(..)` — a panic (`none`) when the resulting
bytes are not valid UTF-8. A `String` argument corresponds to a valid-UTF-8
byte list, but `run` is stated over arbitrary byte lists. -/
def CipherPlan.run (plan : List CipherOp) (signature : List Nat) : Option (List Nat) :=
  (CipherPlan.runBytes plan signature).bind fun l =>
    if utf8Valid l then some l else none

/-- `stepsOk plan l`: every operation of the plan is in bounds at its own step. -/
def stepsOk : List CipherOp → List Nat → Bool
  | [], _ => true
  | c :: cs, l => c.inBounds l && stepsOk cs (c.applyT l)

/-- The bytes produced when every step is in bounds. -/
def applyAll : List CipherOp → List Nat → List Nat
  | [], l => l
  | c :: cs, l => applyAll cs (c.applyT l)

/-! ## Substring search

Rust `str::contains` (used by the cipher classifier on `"reverse"`,
`"splice"`, `'%'` and by `Api::streams` on `"age"`) is a plain substring
test. -/

/-- `needle` occurs as a contiguous substring of `hay`. -/
def listContains (hay needle : List Char) : Bool :=
  (List.range (hay.length + 1)).any fun i => needle.isPrefixOf (hay.drop i)

/-- Rust `str::contains` on strings. -/
def strContains (hay needle : String) : Bool := listContains hay.data needle.data

/-! ## Error taxonomy (src/error.rs) -/

/-- `error::Youtube`: the closed domain-error taxonomy. Constructor names are
the Rust variant names; `CopyrightClaim` carries the claimant (spelled
`claiment` in the source). -/
inductive Youtube where
  | NotFound
  | Private
  | CommunityGuidelineViolation
  | GeoRestricted
  | PurchaseRequired
  | Unviewable
  | AgeRestricted
  | NudityOrSexualContentViolation
  | AccountTerminated
  | RemovedByUploader
  | TermsOfServiceViolation
  | CopyrightClaim (claiment : String)
deriving DecidableEq, Repr

/-- The `Display` text of each `error::Youtube` variant, copied from the
`#[error("..")]` attributes of src/error.rs (`thiserror`). -/
def Youtube.display : Youtube → String
  | .NotFound => "a entity was not found"
  | .Private => "a entity is private"
  | .CommunityGuidelineViolation =>
      "a video is not available due to community guideline violations"
  | .GeoRestricted => "a video is not available in your country"
  | .PurchaseRequired => "a purchase is required to watch get this stream"
  | .Unviewable => "a playlist could not be viewed"
  | .AgeRestricted => "a video is age-restricted"
  | .NudityOrSexualContentViolation =>
      "a video is not available due to nudity or sexual content violations"
  | .AccountTerminated =>
      "the channel or the channel associated with a video was terminated"
  | .RemovedByUploader => "a video was removed by the uploader"
  | .TermsOfServiceViolation =>
      "a video is not available due to violations of YouTube's Terms of Service"
  | .CopyrightClaim claiment =>
      "a video is not available due to a copyright claim by '" ++ claiment ++ "'"

/-- `error::Youtube::is_streamable` (src/error.rs): true exactly for
`AgeRestricted`. -/
def Youtube.is_streamable : Youtube → Bool
  | .AgeRestricted => true
  | _ => false

/-! ## Error classifier (src/youtube/player_response.rs) -/

/-- `SimpleText` of src/youtube/player_response.rs. -/
structure SimpleText where
  simple_text : String
deriving DecidableEq, Repr

/-- `TitleRun` of src/youtube/player_response.rs. -/
structure TitleRun where
  text : String
deriving DecidableEq, Repr

/-- `Runs` of src/youtube/player_response.rs. -/
structure Runs where
  runs : List TitleRun
deriving DecidableEq, Repr

/-- `Subreason` of src/youtube/player_response.rs. -/
inductive Subreason where
  | SimpleText (t : SimpleText)
  | Runs (r : Runs)
deriving DecidableEq, Repr

/-- `PlayerErrorMessageRenderer` of src/youtube/player_response.rs. -/
structure PlayerErrorMessageRenderer where
  reason : SimpleText
  subreason : Option Subreason
deriving DecidableEq, Repr

/-- `ErrorScreen` of src/youtube/player_response.rs. -/
structure ErrorScreen where
  player_error_message_renderer : Option PlayerErrorMessageRenderer
deriving DecidableEq, Repr

/-- `PlayabilityStatus` of src/youtube/player_response.rs. -/
structure PlayabilityStatus where
  status : String
  reason : Option String
  error_screen : Option ErrorScreen
deriving DecidableEq, Repr

/-- `PlayerErrorMessageRenderer::subreason()`: first text of the subreason
(`runs.get(0)?` for the `Runs` case). -/
def PlayerErrorMessageRenderer.subreasonText (r : PlayerErrorMessageRenderer) : Option String :=
  match r.subreason with
  | none => none
  | some (.SimpleText t) => some t.simple_text
  | some (.Runs runs) => (runs.runs.get? 0).map TitleRun.text

/-- `PlayabilityStatus::as_error`: map an upstream failure signal to a
`Youtube` error. Every `unimplemented!`, `unreachable!` or out-of-bounds
index of the source is `none` (a panic): the source has no passthrough
variant for unrecognized text. -/
def PlayabilityStatus.as_error (ps : PlayabilityStatus) : Option Youtube :=
  match ps.reason, ps.error_screen with
  | _, some ⟨some renderer⟩ =>
    if renderer.reason.simple_text = "Private video" then some Youtube.Private
    else if renderer.reason.simple_text = "Video unavailable" then
      let sub := renderer.subreasonText.getD "This video is unavailable"
      if sub = "This video is no longer available because the YouTube account associated with this video has been terminated." then
        some Youtube.AccountTerminated
      else if sub = "This video is unavailable" then some Youtube.NotFound
      else if sub = "This video has been removed by the uploader" then
        some Youtube.RemovedByUploader
      else if sub = "This video is no longer available due to a copyright claim by " then
        match renderer.subreason with
        | some (.Runs runs) =>
            match runs.runs.get? 1 with
            | some run => some (Youtube.CopyrightClaim run.text)
            | none => none
        | _ => none
      else none
    else if renderer.reason.simple_text = "Sign in to confirm your age" then
      some Youtube.AgeRestricted
    else if renderer.reason.simple_text = "This video has been removed for violating YouTube's policy on nudity or sexual content." then
      some Youtube.NudityOrSexualContentViolation
    else if renderer.reason.simple_text = "This video has been removed for violating YouTube's Terms of Service." then
      some Youtube.TermsOfServiceViolation
    else if renderer.reason.simple_text = "This video requires payment to watch." then
      some Youtube.PurchaseRequired
    else none
  | some reason, _ =>
    if reason = "This video requires payment to watch." then some Youtube.PurchaseRequired
    else none
  | _, _ => none

/-- The reason templates `PlayabilityStatus::as_error` recognizes on the
error-screen renderer text. -/
def knownRendererReasons : List String :=
  ["Private video", "Video unavailable", "Sign in to confirm your age",
   "This video has been removed for violating YouTube's policy on nudity or sexual content.",
   "This video has been removed for violating YouTube's Terms of Service.",
   "This video requires payment to watch."]

/-! ## Browse error classifier (src/youtube/browse/mod.rs) -/

/-- `browse::Text` (either a simple text or a one-tuple of runs). -/
inductive BrowseText where
  | SimpleText (t : SimpleText)
  | Runs (run : TitleRun)
deriving DecidableEq, Repr

/-- `browse::AlertRenderer`. -/
structure AlertRenderer where
  type : String
  text : BrowseText
deriving DecidableEq, Repr

/-- `browse::Alert`. -/
structure Alert where
  alert_renderer : AlertRenderer
deriving DecidableEq, Repr

/-- `AlertRenderer::text()`. -/
def AlertRenderer.textStr (a : AlertRenderer) : String :=
  match a.text with
  | .SimpleText t => t.simple_text
  | .Runs run => run.text

/-- `browse::Result<T>`. -/
inductive BrowseResult (T : Type) where
  | Error (alert : Alert)
  | Ok (value : T)

/-- `browse::Result::into_std`: the `assert_eq!` on the alert type and the
`unimplemented!` on unknown alert text are panics (`none`). -/
def BrowseResult.into_std {T : Type} : BrowseResult T → Option (Except Youtube T)
  | .Ok value => some (Except.ok value)
  | .Error alert =>
    if alert.alert_renderer.type = "ERROR" then
      let t := alert.alert_renderer.textStr
      if t = "The playlist does not exist." ∨ t = "This channel does not exist." then
        some (Except.error Youtube.NotFound)
      else if t = "This playlist type is unviewable." then
        some (Except.error Youtube.Unviewable)
      else none
    else none

/-- The alert texts `browse::Result::into_std` recognizes. -/
def knownAlertTexts : List String :=
  ["The playlist does not exist.", "This channel does not exist.",
   "This playlist type is unviewable."]

deriving instance DecidableEq for Except

/-! ## Request orchestrator (src/youtube/innertube.rs)

`Api::get` posts the request, then loops: a successful transport response is
read and parsed (`serde_json::from_str` followed by
`.expect("Failed to parse JSON")` — a panic on parse failure); a timeout is
retried with the same prepared request (hence the same context) until the
retry counter reaches `RETRYS`, after which the timeout is surfaced as
`Error::Request`; any other transport error is surfaced as `Error::Request`
at once. The transport is abstracted as an oracle giving the outcome of each
attempt, indexed by attempt number. -/

/-- `RETRYS` of src/youtube/innertube.rs. -/
def RETRYS : Nat := 5

/-- The outcome of one transport attempt: a successful response whose body
parses (or not) into the endpoint schema, a timeout, or another transport
error. -/
inductive Outcome where
  | success (parses : Bool)
  | timeout
  | failure
deriving DecidableEq, Repr

/-- `crate::Error::Request`, tagged by whether the underlying `reqwest`
error was a timeout. -/
inductive ReqError where
  | request (is_timeout : Bool)
deriving DecidableEq, Repr

/-- The retry loop of `Api::get`. `attempt` is the index of the next attempt,
`retriesLeft` is `RETRYS` minus the retries already used (the source breaks
with an error on a timeout when `retry == RETRYS`). Returns the result
(`none` is the parse-failure panic) and the number of attempts performed. -/
def Api.getAux (o : Nat → Outcome) : Nat → Nat → Option (Except ReqError Unit) × Nat
  | attempt, retriesLeft =>
    match o attempt, retriesLeft with
    | .success true, _ => (some (Except.ok ()), attempt + 1)
    | .success false, _ => (none, attempt + 1)
    | .failure, _ => (some (Except.error (ReqError.request false)), attempt + 1)
    | .timeout, 0 => (some (Except.error (ReqError.request true)), attempt + 1)
    | .timeout, n + 1 => Api.getAux o (attempt + 1) n

/-- `Api::get` as observed through the transport oracle. -/
def Api.get (o : Nat → Outcome) : Option (Except ReqError Unit) × Nat :=
  Api.getAux o 0 RETRYS

/-- `crate::Error` as it reaches `Api::streams`: a transport error or a
classified `Youtube` error. -/
inductive CrateError where
  | Request (e : ReqError)
  | Youtube (y : Youtube)
deriving DecidableEq, Repr

/-- The two already-classified results `Api::streams` can observe: the
primary (`CONTEXT_ANDROID`) call and the embedded-player
(`CONTEXT_EMBEDDED`) call. The payload (`StreamingData`) is abstract. -/
structure StreamOracle (T : Type) where
  primary : Except CrateError T
  fallback : Except CrateError T

/-- `Api::streams`: issue the primary call; when the result matches
`Err(Error::Youtube(yt))` with `yt.to_string().contains("age")`, issue the
same call once more with the embedded-player context and return that second
result; otherwise return the primary result. The second component counts the
player requests performed. -/
def Api.streams {T : Type} (o : StreamOracle T) : Except CrateError T × Nat :=
  let res := o.primary
  let isAge : Bool :=
    match res with
    | .error (CrateError.Youtube yt) => strContains yt.display "age"
    | _ => false
  if isAge then (o.fallback, 2) else (res, 1)

/-! ## Player cache (src/client.rs)

`Client` holds `player: OnceCell<Player>`; `Client::player` fetches and
stores the player only when the cell is empty, and returns the cell's value.
The fetch itself is abstracted as the `Player` value it would produce. -/

/-- `Player` of src/player.rs: owns the extracted cipher plan. -/
structure Player where
  cipher_plan : List CipherOp
deriving DecidableEq, Repr

/-- The `player` cell of `Client` (a `OnceCell<Player>`). -/
structure ClientState where
  player : Option Player
deriving DecidableEq, Repr

/-- `Client::player`, observed sequentially: returns the player, the new cell
state, and the number of player-asset fetches performed by this call. -/
def Client.playerCall (st : ClientState) (fetched : Player) :
    Player × ClientState × Nat :=
  match st.player with
  | some p => (p, st, 0)
  | none => (fetched, ⟨some fetched⟩, 1)

/-! ## Continuation pagination (src/playlist.rs, src/youtube/browse/continuation.rs)

`Playlist::videos` iterates the current page's items: a
`PlaylistVideoRenderer` is yielded; a `ContinuationItemRenderer` replaces the
iterator with the items of the page fetched for its token (the items a
continuation response yields through `Root::into_videos`), dropping whatever
followed the continuation item. The continuation request is an external
call, abstracted as a `fetch` oracle from tokens to pages (`none` is the
`expect("Continuation request failed")` panic). The loop of the source has
no intrinsic bound, so the embedding carries a fuel counting the
continuation requests it may still make; `none` on fuel exhaustion stands
for non-termination. -/

/-- `browse::playlist::PlaylistItem`, reduced to what the pagination loop
reads: the video id of a `PlaylistVideoRenderer`, or the token of a
`ContinuationItemRenderer`. -/
inductive PlaylistItem where
  | PlaylistVideoRenderer (video_id : String)
  | ContinuationItemRenderer (token : String)
deriving DecidableEq, Repr

/-- The loop of `Playlist::videos` over the remaining items of the current
page. -/
def Playlist.videosAux (fetch : String → Option (List PlaylistItem)) :
    Nat → List PlaylistItem → Option (List String)
  | _, [] => some []
  | fuel, PlaylistItem.PlaylistVideoRenderer v :: rest =>
      (Playlist.videosAux fetch fuel rest).map (v :: ·)
  | 0, PlaylistItem.ContinuationItemRenderer _ :: _ => none
  | fuel + 1, PlaylistItem.ContinuationItemRenderer tok :: _ =>
      match fetch tok with
      | none => none
      | some items => Playlist.videosAux fetch fuel items
  termination_by fuel items => (fuel, items)

/-- A finite chain of pages: every non-final page carries its videos and the
continuation token of the next page; the final page carries no token. -/
inductive PageChain where
  | last (vids : List String)
  | more (vids : List String) (token : String) (rest : PageChain)
deriving DecidableEq, Repr

/-- The item list of the chain's first page: the continuation token appears
only as the last item, as the protocol requires. -/
def PageChain.items : PageChain → List PlaylistItem
  | .last vs => vs.map PlaylistItem.PlaylistVideoRenderer
  | .more vs t _ =>
      vs.map PlaylistItem.PlaylistVideoRenderer ++ [PlaylistItem.ContinuationItemRenderer t]

/-- The concatenation of all pages' videos, in page order. -/
def PageChain.allVideos : PageChain → List String
  | .last vs => vs
  | .more vs _ r => vs ++ r.allVideos

/-- The number of pages of the chain. -/
def PageChain.pages : PageChain → Nat
  | .last _ => 1
  | .more _ _ r => 1 + r.pages

/-- The fetch oracle answers each token of the chain with the item list of
the page it names. -/
def FetchMatches (fetch : String → Option (List PlaylistItem)) : PageChain → Bool
  | .last _ => true
  | .more _ t r => decide (fetch t = some r.items) && FetchMatches fetch r

/-! ## Cipher extractor (src/player.rs, `CipherPlan::from_body`)

`from_body` captures the decipher routine's body with the entry regex (no
match is `Error::CipherPlanNotFound`), splits it on `';'`, drops empty
pieces, and parses each statement with the call regex (no match is
`Error::Statement`); each called function's body is captured by a
name-built regex over the whole asset (no match is
`Error::CipherFunctionNotFound`) and classified by content: `"reverse"` →
reverse, else `"splice"` → splice, else `'%'` → swap, else
`Error::UnknownCipher` with the name and body. The regex engine is an
external collaborator, abstracted as an oracle of its three capture
operations; splitting, filtering, sequencing (first error wins, in order)
and classification are embedded directly. `arg.parse::<usize>()` followed by
`expect` is `String.toNat?` (a panic — `none` — when the captured `\w+`
argument is not a number). -/

/-- `player::Error`, restricted to the variants `from_body` produces. -/
inductive PlayerError where
  | UnknownCipher (function_name : String) (body : String)
  | CipherPlanNotFound
  | CipherFunctionNotFound (name : String)
  | Statement (s : String)
deriving DecidableEq, Repr

/-- The three regex capture operations of `from_body`, as an oracle:
`entryCapture` is capture 1 of the entry regex on the asset text;
`statementCapture` is (capture 1, capture 2) of the call regex on one
statement; `functionBody` is capture 1 of the name-built function regex on
the asset text. -/
structure RegexOracle where
  entryCapture : String → Option String
  statementCapture : String → Option (String × String)
  functionBody : String → String → Option String

/-- Rust `str::split(sep)` on a character list: the groups between the
separators (consecutive separators give empty groups; the empty input gives
one empty group). -/
def splitOnChar (sep : Char) : List Char → List (List Char)
  | [] => [[]]
  | c :: rest =>
    match splitOnChar sep rest with
    | [] => [[]]
    | g :: gs => if c = sep then [] :: g :: gs else (c :: g) :: gs

/-- Rust `str::parse::<usize>()` on a `\w+` regex capture: the digits read in
base 10, or a failure when some character is not a digit. (Rust would also
accept a leading `'+'` and reject values above `usize::MAX`, but a `\w+`
capture cannot contain `'+'` and `Nat` is unbounded.) -/
def parseUsize (s : String) : Option Nat :=
  if s.data ≠ [] ∧ s.data.all Char.isDigit then
    some (s.data.foldl (fun n c => n * 10 + (c.toNat - 48)) 0)
  else none

/-- `decipher_body.split(';').filter(|s| !s.is_empty())`. -/
def stmtsOf (decipherBody : String) : List String :=
  ((splitOnChar ';' decipherBody.data).map String.mk).filter (fun s => !s.data.isEmpty)

/-- The content-signature classification of one function body. -/
def classifyCipher (function_name bodyTxt arg : String) :
    Option (Except PlayerError CipherOp) :=
  if strContains bodyTxt "reverse" then some (Except.ok CipherOp.reverse)
  else if strContains bodyTxt "splice" then
    (parseUsize arg).map fun n => Except.ok (CipherOp.splice n)
  else if strContains bodyTxt "%" then
    (parseUsize arg).map fun n => Except.ok (CipherOp.swap n)
  else some (Except.error (PlayerError.UnknownCipher function_name bodyTxt))

/-- Process one statement of the decipher body: parse the call, look up the
called function's body, classify it. -/
def processStatement (R : RegexOracle) (body s : String) :
    Option (Except PlayerError CipherOp) :=
  match R.statementCapture s with
  | none => some (Except.error (PlayerError.Statement s))
  | some (name, arg) =>
    match R.functionBody body name with
    | none => some (Except.error (PlayerError.CipherFunctionNotFound name))
    | some b => classifyCipher name b arg

/-- `collect::<Result<_, Error>>()` over the processed statements: the first
error, in statement order, wins; otherwise the list of operations in order. -/
def collectOps (f : String → Option (Except PlayerError CipherOp)) :
    List String → Option (Except PlayerError (List CipherOp))
  | [] => some (Except.ok [])
  | s :: rest =>
    match f s with
    | none => none
    | some (Except.error e) => some (Except.error e)
    | some (Except.ok c) =>
      match collectOps f rest with
      | none => none
      | some (Except.error e) => some (Except.error e)
      | some (Except.ok cs) => some (Except.ok (c :: cs))

/-- `CipherPlan::from_body`, through the regex oracle. -/
def CipherPlan.from_body (R : RegexOracle) (body : String) :
    Option (Except PlayerError (List CipherOp)) :=
  match R.entryCapture body with
  | none => some (Except.error PlayerError.CipherPlanNotFound)
  | some decipherBody => collectOps (processStatement R body) (stmtsOf decipherBody)

/-! Concrete oracles and fixtures used by the witnesses. -/

/-- An oracle whose entry regex finds nothing. -/
def R9a : RegexOracle := ⟨fun _ => none, fun _ => none, fun _ _ => none⟩

/-- An oracle with one statement whose called function cannot be located. -/
def R9b : RegexOracle :=
  ⟨fun _ => some "a.f1(x,2)",
   fun s => if s = "a.f1(x,2)" then some ("f1", "2") else none,
   fun _ _ => none⟩

/-- An oracle with one statement whose function body matches no signature. -/
def R9c : RegexOracle :=
  ⟨fun _ => some "a.f1(x,2)",
   fun s => if s = "a.f1(x,2)" then some ("f1", "2") else none,
   fun _ name => if name = "f1" then some "var t=0" else none⟩

/-- An oracle describing a well-formed two-statement asset. -/
def R9d : RegexOracle :=
  ⟨fun _ => some "a.r1(x,2);a.s2(x,3)",
   fun s => if s = "a.r1(x,2)" then some ("r1", "2")
     else if s = "a.s2(x,3)" then some ("s2", "3") else none,
   fun _ name => if name = "r1" then some "a.reverse()"
     else if name = "s2" then some "a.splice(0,b)" else none⟩

/-- The three-page fixture of the pagination witness. -/
def chain3 : PageChain :=
  PageChain.more ["a", "b"] "t1" (PageChain.more ["c"] "t2" (PageChain.last ["d", "e"]))

/-- The fetch oracle of the pagination witness. -/
def fetch3 : String → Option (List PlaylistItem) := fun t =>
  if t = "t1" then some (PageChain.more ["c"] "t2" (PageChain.last ["d", "e"])).items
  else if t = "t2" then some (PageChain.last ["d", "e"]).items
  else none

end Ytextract

namespace Ytextract

theorem CipherOp.decipher_eq (c : CipherOp) (l : List Nat) :
    c.decipher l = if c.inBounds l then some (c.applyT l) else none := by
  cases c <;> simp [CipherOp.decipher, CipherOp.inBounds, CipherOp.applyT]

theorem CipherPlan.runBytes_eq (plan : List CipherOp) (l : List Nat) :
    CipherPlan.runBytes plan l =
      if stepsOk plan l then some (applyAll plan l) else none := by
  induction plan generalizing l with
  | nil => simp [CipherPlan.runBytes, stepsOk, applyAll]
  | cons c cs ih =>
      simp only [CipherPlan.runBytes, CipherOp.decipher_eq, stepsOk, applyAll]
      by_cases h : c.inBounds l = true
      · simp [h, ih]
      · simp [h]

/-- C1: the cipher interpreter is a pure Lean function (hence deterministic);
its recursion applies the extracted operations strictly in order (head
operation first, then the rest on its output); on the bytes of `"ABCDEFG"`
the plan `[SwapFirst 2, Splice 3, Reverse]` yields the bytes of `"GFED"`
while `[Splice 3, SwapFirst 2, Reverse]` yields the bytes of `"GDEF"`, and
the two results differ. -/
theorem C1_interpreter_order_sensitive :
    (∀ (c : CipherOp) (cs : List CipherOp) (l : List Nat),
        CipherPlan.runBytes (c :: cs) l = (c.decipher l).bind (CipherPlan.runBytes cs)) ∧
    CipherPlan.run [CipherOp.swap 2, CipherOp.splice 3, CipherOp.reverse]
        [65, 66, 67, 68, 69, 70, 71] = some [71, 70, 69, 68] ∧
    CipherPlan.run [CipherOp.splice 3, CipherOp.swap 2, CipherOp.reverse]
        [65, 66, 67, 68, 69, 70, 71] = some [71, 68, 69, 70] ∧
    ([71, 70, 69, 68] : List Nat) ≠ [71, 68, 69, 70] := by
  refine ⟨fun c cs l => rfl, by decide, by decide, by decide⟩

/-- C10: `CipherPlan::run` is partial at the public interface: it panics on a
swap whose index is out of bounds, on a splice whose count exceeds the
current length, and on a deciphered byte sequence that is not valid UTF-8
(witnessed by reversing the two-byte encoding of U+00E9); in general the run
returns a value exactly when every operation is in bounds at its own step and
the final bytes are valid UTF-8, and that value is the in-order application
of all operations. -/
theorem C10_run_partiality :
    CipherPlan.run [CipherOp.swap 2] [65] = none ∧
    CipherPlan.run [CipherOp.splice 3] [65] = none ∧
    CipherPlan.run [CipherOp.reverse] [0xC3, 0xA9] = none ∧
    ∀ (plan : List CipherOp) (signature : List Nat),
      CipherPlan.run plan signature =
        if stepsOk plan signature && utf8Valid (applyAll plan signature)
        then some (applyAll plan signature) else none := by
  refine ⟨by decide, by decide, by decide, fun plan signature => ?_⟩
  simp only [CipherPlan.run, CipherPlan.runBytes_eq]
  by_cases h : stepsOk plan signature = true
  · by_cases h2 : utf8Valid (applyAll plan signature) = true
    · simp [h, h2]
    · simp [h, h2]
  · simp [h]

/-- C2 counterexample: on a failure signal whose reason text matches no known
template (reason `"Totally new reason text"`, no error screen), the
classifier returns no value at all — the source hits `unimplemented!` and
panics — so it does not return an `Unclassified{rawText}` passthrough value
(no such variant exists in `error::Youtube`). -/
theorem C2_unmatched_not_passthrough :
    PlayabilityStatus.as_error
      ⟨"ERROR", some "Totally new reason text", none⟩ = none := by
  decide

/-- C2 (amended): for every upstream failure signal whose reason text matches
none of the known template strings, the classifier panics
(`unimplemented!`, embedded as `none`) instead of returning any value; in
particular it never coerces unmatched input to a known category such as
`NotFound`. This covers the error-screen path and the bare-reason path of
`PlayabilityStatus::as_error`, and the alert path of
`browse::Result::into_std`. -/
theorem C2_unmatched_panics (ps : PlayabilityStatus) :
    (∀ renderer, ps.error_screen = some ⟨some renderer⟩ →
      renderer.reason.simple_text ∉ knownRendererReasons →
      ps.as_error = none) ∧
    (∀ reason, (ps.error_screen = none ∨ ps.error_screen = some ⟨none⟩) →
      ps.reason = some reason →
      reason ≠ "This video requires payment to watch." →
      ps.as_error = none) ∧
    (∀ (alert : Alert), alert.alert_renderer.textStr ∉ knownAlertTexts →
      BrowseResult.into_std (T := Nat) (BrowseResult.Error alert) = none) := by
  refine ⟨fun renderer hes hmem => ?_, fun reason hes hr hne => ?_, fun alert hmem => ?_⟩
  · simp only [knownRendererReasons, List.mem_cons, List.not_mem_nil, or_false,
      not_or] at hmem
    obtain ⟨h1, h2, h3, h4, h5, h6⟩ := hmem
    obtain ⟨status, reason, es⟩ := ps
    simp only at hes
    subst hes
    cases reason <;>
      simp [PlayabilityStatus.as_error, h1, h2, h3, h4, h5, h6]
  · obtain ⟨status, r, es⟩ := ps
    simp only at hr
    subst hr
    rcases hes with h | h <;> simp only at h <;> subst h <;>
      simp [PlayabilityStatus.as_error, hne]
  · simp only [knownAlertTexts, List.mem_cons, List.not_mem_nil, or_false,
      not_or] at hmem
    obtain ⟨h1, h2, h3⟩ := hmem
    by_cases ht : alert.alert_renderer.type = "ERROR" <;>
      simp [BrowseResult.into_std, ht, h1, h2, h3]

/-- C2 witness: the amended theorem applied at concrete unmatched inputs —
an error screen with a brand-new renderer text, a bare unmatched reason, and
an alert with a brand-new text — all of which panic (`none`). -/
theorem C2_unmatched_panics_witness :
    PlayabilityStatus.as_error
      ⟨"ERROR", none, some ⟨some ⟨⟨"Brand new screen text"⟩, none⟩⟩⟩ = none ∧
    PlayabilityStatus.as_error ⟨"ERROR", some "Another new reason", none⟩ = none ∧
    BrowseResult.into_std (T := Nat)
      (BrowseResult.Error ⟨⟨"ERROR", BrowseText.SimpleText ⟨"A new alert text"⟩⟩⟩) = none := by
  refine ⟨?_, ?_, ?_⟩
  · exact (C2_unmatched_panics _).1 ⟨⟨"Brand new screen text"⟩, none⟩ rfl (by decide)
  · exact (C2_unmatched_panics
      ⟨"ERROR", some "Another new reason", none⟩).2.1 "Another new reason"
      (Or.inl rfl) rfl (by decide)
  · exact (C2_unmatched_panics ⟨"ERROR", none, none⟩).2.2
      ⟨⟨"ERROR", BrowseText.SimpleText ⟨"A new alert text"⟩⟩⟩ (by decide)

/-- C3: every known template classifies to its exact category of the closed
taxonomy. Error screen, by renderer reason: `"Private video"` → `Private`;
`"Video unavailable"` with the account-terminated subreason →
`AccountTerminated`, with subreason `"This video is unavailable"` (and
likewise with no subreason at all, the source's default) → `NotFound`, with
subreason `"This video has been removed by the uploader"` →
`RemovedByUploader`, and with the copyright-claim subreason →
`CopyrightClaim` carrying the claimant extracted as the second run (proved
for every claimant string); `"Sign in to confirm your age"` →
`AgeRestricted`; the nudity text → `NudityOrSexualContentViolation`; the
Terms-of-Service text → `TermsOfServiceViolation`; `"This video requires
payment to watch."` → `PurchaseRequired`, on the error-screen arm and on the
bare-reason arm alike. Browse alerts: `"The playlist does not exist."` and
`"This channel does not exist."` → `NotFound`;
`"This playlist type is unviewable."` → `Unviewable`. -/
theorem C3_known_templates_classify :
    PlayabilityStatus.as_error
      ⟨"ERROR", none, some ⟨some ⟨⟨"Private video"⟩, none⟩⟩⟩ = some Youtube.Private ∧
    PlayabilityStatus.as_error
      ⟨"ERROR", none, some ⟨some ⟨⟨"Video unavailable"⟩,
        some (Subreason.SimpleText ⟨"This video is no longer available because the YouTube account associated with this video has been terminated."⟩)⟩⟩⟩ =
      some Youtube.AccountTerminated ∧
    PlayabilityStatus.as_error
      ⟨"ERROR", none, some ⟨some ⟨⟨"Video unavailable"⟩,
        some (Subreason.SimpleText ⟨"This video is unavailable"⟩)⟩⟩⟩ =
      some Youtube.NotFound ∧
    PlayabilityStatus.as_error
      ⟨"ERROR", none, some ⟨some ⟨⟨"Video unavailable"⟩, none⟩⟩⟩ =
      some Youtube.NotFound ∧
    PlayabilityStatus.as_error
      ⟨"ERROR", none, some ⟨some ⟨⟨"Video unavailable"⟩,
        some (Subreason.SimpleText ⟨"This video has been removed by the uploader"⟩)⟩⟩⟩ =
      some Youtube.RemovedByUploader ∧
    (∀ claimant : String,
      PlayabilityStatus.as_error
        ⟨"ERROR", none, some ⟨some ⟨⟨"Video unavailable"⟩,
          some (Subreason.Runs ⟨[⟨"This video is no longer available due to a copyright claim by "⟩,
            ⟨claimant⟩]⟩)⟩⟩⟩ =
        some (Youtube.CopyrightClaim claimant)) ∧
    PlayabilityStatus.as_error
      ⟨"ERROR", none, some ⟨some ⟨⟨"Sign in to confirm your age"⟩, none⟩⟩⟩ =
      some Youtube.AgeRestricted ∧
    PlayabilityStatus.as_error
      ⟨"ERROR", none, some ⟨some ⟨⟨"This video has been removed for violating YouTube's policy on nudity or sexual content."⟩, none⟩⟩⟩ =
      some Youtube.NudityOrSexualContentViolation ∧
    PlayabilityStatus.as_error
      ⟨"ERROR", none, some ⟨some ⟨⟨"This video has been removed for violating YouTube's Terms of Service."⟩, none⟩⟩⟩ =
      some Youtube.TermsOfServiceViolation ∧
    PlayabilityStatus.as_error
      ⟨"ERROR", none, some ⟨some ⟨⟨"This video requires payment to watch."⟩, none⟩⟩⟩ =
      some Youtube.PurchaseRequired ∧
    PlayabilityStatus.as_error
      ⟨"ERROR", some "This video requires payment to watch.", none⟩ =
      some Youtube.PurchaseRequired ∧
    PlayabilityStatus.as_error
      ⟨"ERROR", some "This video requires payment to watch.", some ⟨none⟩⟩ =
      some Youtube.PurchaseRequired ∧
    BrowseResult.into_std (T := Nat)
      (BrowseResult.Error ⟨⟨"ERROR",
        BrowseText.SimpleText ⟨"The playlist does not exist."⟩⟩⟩) =
      some (Except.error Youtube.NotFound) ∧
    BrowseResult.into_std (T := Nat)
      (BrowseResult.Error ⟨⟨"ERROR",
        BrowseText.SimpleText ⟨"This channel does not exist."⟩⟩⟩) =
      some (Except.error Youtube.NotFound) ∧
    BrowseResult.into_std (T := Nat)
      (BrowseResult.Error ⟨⟨"ERROR",
        BrowseText.Runs ⟨"This channel does not exist."⟩⟩⟩) =
      some (Except.error Youtube.NotFound) ∧
    BrowseResult.into_std (T := Nat)
      (BrowseResult.Error ⟨⟨"ERROR",
        BrowseText.SimpleText ⟨"This playlist type is unviewable."⟩⟩⟩) =
      some (Except.error Youtube.Unviewable) := by
  refine ⟨by decide, by decide, by decide, by decide, by decide, fun claimant => rfl,
    by decide, by decide, by decide, by decide, by decide, by decide, by decide,
    by decide, by decide, by decide⟩

theorem Api.getAux_all_timeout (o : Nat → Outcome) :
    ∀ (retriesLeft attempt : Nat),
      (∀ i, i ≤ retriesLeft → o (attempt + i) = Outcome.timeout) →
      Api.getAux o attempt retriesLeft =
        (some (Except.error (ReqError.request true)), attempt + retriesLeft + 1) := by
  intro retriesLeft
  induction retriesLeft with
  | zero =>
      intro attempt h
      have h0 := h 0 (Nat.le_refl 0)
      simp only [Nat.add_zero] at h0
      simp [Api.getAux, h0]
  | succ n ih =>
      intro attempt h
      have h0 := h 0 (Nat.zero_le _)
      simp only [Nat.add_zero] at h0
      have step : Api.getAux o attempt (n + 1) = Api.getAux o (attempt + 1) n := by
        simp [Api.getAux, h0]
      rw [step, ih (attempt + 1) (fun i hi => by
        have := h (i + 1) (Nat.succ_le_succ hi)
        simpa [Nat.add_assoc, Nat.add_comm 1 i] using this)]
      congr 1
      omega

theorem Api.getAux_stops (o : Nat → Outcome)
    (final : Outcome) (res : Option (Except ReqError Unit))
    (hfinal : final = Outcome.failure ∧ res = some (Except.error (ReqError.request false)) ∨
      final = Outcome.success false ∧ res = none ∨
      final = Outcome.success true ∧ res = some (Except.ok ())) :
    ∀ (k retriesLeft attempt : Nat), k ≤ retriesLeft →
      (∀ i, i < k → o (attempt + i) = Outcome.timeout) →
      o (attempt + k) = final →
      Api.getAux o attempt retriesLeft = (res, attempt + k + 1) := by
  intro k
  induction k with
  | zero =>
      intro retriesLeft attempt _ _ hk
      simp only [Nat.add_zero] at hk
      rcases hfinal with ⟨hf, hr⟩ | ⟨hf, hr⟩ | ⟨hf, hr⟩ <;> subst hf <;> subst hr <;>
        cases retriesLeft <;> simp [Api.getAux, hk]
  | succ n ih =>
      intro retriesLeft attempt hle hto hk
      obtain ⟨m, rfl⟩ : ∃ m, retriesLeft = m + 1 :=
        ⟨retriesLeft - 1, by omega⟩
      have h0 := hto 0 (Nat.succ_pos n)
      simp only [Nat.add_zero] at h0
      have step : Api.getAux o attempt (m + 1) = Api.getAux o (attempt + 1) m := by
        simp [Api.getAux, h0]
      rw [step, ih m (attempt + 1) (by omega)
        (fun i hi => by
          have := hto (i + 1) (Nat.succ_lt_succ hi)
          simpa [Nat.add_assoc, Nat.add_comm 1 i] using this)
        (by simpa [Nat.add_assoc, Nat.add_comm 1 n] using hk)]
      congr 1
      omega

/-- C5: on timeouts `Api::get` retries with the same prepared request up to
`RETRYS = 5` retries — six timed-out attempts in total — and then surfaces
the timeout as `Error::Request`; a non-timeout transport error at any
attempt within the budget is surfaced as `Error::Request` immediately, with
no further attempt. -/
theorem C5_timeout_retry_bound (o : Nat → Outcome) :
    ((∀ i, i ≤ RETRYS → o i = Outcome.timeout) →
      Api.get o = (some (Except.error (ReqError.request true)), RETRYS + 1)) ∧
    (∀ k, k ≤ RETRYS → (∀ i, i < k → o i = Outcome.timeout) →
      o k = Outcome.failure →
      Api.get o = (some (Except.error (ReqError.request false)), k + 1)) := by
  constructor
  · intro h
    have := Api.getAux_all_timeout o RETRYS 0 (fun i hi => by simpa using h i hi)
    simpa [Api.get] using this
  · intro k hk hto hf
    have := Api.getAux_stops o Outcome.failure
      (some (Except.error (ReqError.request false))) (Or.inl ⟨rfl, rfl⟩)
      k RETRYS 0 hk (fun i hi => by simpa using hto i hi) (by simpa using hf)
    simpa [Api.get] using this

/-- C5 witness: under an all-timeout transport the call surfaces
`Error::Request` after exactly `RETRYS + 1 = 6` attempts, and under an
immediate non-timeout failure it surfaces `Error::Request` after exactly one
attempt. -/
theorem C5_timeout_retry_bound_witness :
    (∀ i, i ≤ RETRYS → (fun _ => Outcome.timeout) i = Outcome.timeout) ∧
    Api.get (fun _ => Outcome.timeout) =
      (some (Except.error (ReqError.request true)), 6) ∧
    Api.get (fun _ => Outcome.failure) =
      (some (Except.error (ReqError.request false)), 1) := by
  refine ⟨fun i _ => rfl, ?_, ?_⟩
  · exact (C5_timeout_retry_bound (fun _ => Outcome.timeout)).1 (fun i _ => rfl)
  · exact (C5_timeout_retry_bound (fun _ => Outcome.failure)).2 0 (Nat.zero_le _)
      (fun i hi => absurd hi (Nat.not_lt_zero i)) rfl

/-- C6 counterexample: when the first attempt succeeds at the transport level
but its body does not deserialize into the endpoint schema, `Api::get`
returns no error value at all: the source panics at
`.expect("Failed to parse JSON")` (embedded as `none`), so the parse failure
is not surfaced to the caller as a value. -/
theorem C6_parse_failure_not_an_error_value :
    Api.get (fun _ => Outcome.success false) = (none, 1) := by
  decide

/-- C6 (amended): when an upstream response body does not deserialize into
the endpoint's expected schema, `Api::get` panics
(`.expect("Failed to parse JSON")`, embedded as `none`) instead of returning
any value; the parse failure is not retried (the call stops at that
attempt), and it is never coerced into the domain taxonomy or into
`Error::Request`. -/
theorem C6_parse_failure_panics (o : Nat → Outcome) :
    ∀ k, k ≤ RETRYS → (∀ i, i < k → o i = Outcome.timeout) →
      o k = Outcome.success false →
      Api.get o = (none, k + 1) := by
  intro k hk hto hp
  have := Api.getAux_stops o (Outcome.success false) none
    (Or.inr (Or.inl ⟨rfl, rfl⟩)) k RETRYS 0 hk
    (fun i hi => by simpa using hto i hi) (by simpa using hp)
  simpa [Api.get] using this

/-- C6 witness: the amended theorem at a transport that times out twice and
then returns an unparseable body — the call panics at the third attempt. -/
theorem C6_parse_failure_panics_witness :
    (2 ≤ RETRYS) ∧
    Api.get (fun i => if i < 2 then Outcome.timeout else Outcome.success false) =
      (none, 3) := by
  refine ⟨by decide, ?_⟩
  exact C6_parse_failure_panics _ 2 (by decide)
    (fun i hi => by
      have : i < 2 := hi
      simp [this])
    (by decide)

/-- C4: evaluation of `Api::streams` at the failing input. The source decides
the embedded-player fallback by `yt.to_string().contains("age")`: a primary
result classified `CopyrightClaim { claiment: "Sage" }` — not an
age-restriction — also triggers the fallback request (its display text
`"..a copyright claim by 'Sage'"` contains `"age"`), performing two requests
where the claim (and the source's own comment and its unused
`Youtube::is_streamable` helper, which matches only `AgeRestricted`) says
one; an `AgeRestricted` primary result triggers exactly one fallback whose
result is returned, and a `NotFound` primary result triggers none. -/
theorem C4_fallback_contains_age :
    Api.streams (T := Nat)
      ⟨Except.error (CrateError.Youtube (Youtube.CopyrightClaim "Sage")), Except.ok 7⟩ =
      (Except.ok 7, 2) ∧
    Youtube.is_streamable (Youtube.CopyrightClaim "Sage") = false ∧
    Api.streams (T := Nat)
      ⟨Except.error (CrateError.Youtube Youtube.AgeRestricted), Except.ok 7⟩ =
      (Except.ok 7, 2) ∧
    Api.streams (T := Nat)
      ⟨Except.error (CrateError.Youtube Youtube.NotFound), Except.ok 7⟩ =
      (Except.error (CrateError.Youtube Youtube.NotFound), 1) ∧
    Api.streams (T := Nat) ⟨Except.ok 3, Except.ok 7⟩ = (Except.ok 3, 1) := by
  refine ⟨by decide, by decide, by decide, by decide, by decide⟩

/-- C7: the player asset is fetched at most once: starting from an empty
cell, the first `Client::player` call performs exactly one fetch and stores
its result; the second call performs zero fetches and returns the stored
value; and once the cell holds a player it is never mutated — any later call
returns exactly the stored player, leaves the state unchanged, and performs
zero fetches. -/
theorem C7_player_fetched_once :
    (∀ f g : Player,
      Client.playerCall ⟨none⟩ f = (f, ⟨some f⟩, 1) ∧
      Client.playerCall (Client.playerCall ⟨none⟩ f).2.1 g = (f, ⟨some f⟩, 0) ∧
      (Client.playerCall ⟨none⟩ f).2.2 +
        (Client.playerCall (Client.playerCall ⟨none⟩ f).2.1 g).2.2 = 1) ∧
    (∀ (p : Player) (g : Player),
      Client.playerCall ⟨some p⟩ g = (p, ⟨some p⟩, 0)) := by
  exact ⟨fun f g => ⟨rfl, rfl, rfl⟩, fun p g => rfl⟩

theorem Playlist.videosAux_map_append (fetch : String → Option (List PlaylistItem))
    (fuel : Nat) (vs : List String) (rest : List PlaylistItem) :
    Playlist.videosAux fetch fuel (vs.map PlaylistItem.PlaylistVideoRenderer ++ rest) =
      (Playlist.videosAux fetch fuel rest).map (vs ++ ·) := by
  induction vs with
  | nil =>
      simp only [List.map_nil, List.nil_append]
      cases h : Playlist.videosAux fetch fuel rest <;> simp
  | cons v vs ih =>
      simp only [List.map_cons, List.cons_append, Playlist.videosAux, ih]
      cases h : Playlist.videosAux fetch fuel rest <;> simp

theorem PageChain.one_le_pages (c : PageChain) : 1 ≤ c.pages := by
  cases c <;> simp [PageChain.pages]

/-- C8: for every finite chain of pages in which the continuation token
appears only as the last item of each non-final page and the final page
carries none, and every fetch oracle answering each token with the page it
names, the pagination loop terminates within a fuel of one continuation
request per non-final page and yields exactly the concatenation of all
pages' videos in page order. -/
theorem C8_pagination_concat (fetch : String → Option (List PlaylistItem))
    (c : PageChain) :
    ∀ fuel : Nat, FetchMatches fetch c = true → c.pages ≤ fuel + 1 →
      Playlist.videosAux fetch fuel c.items = some c.allVideos := by
  induction c with
  | last vs =>
      intro fuel _ _
      have h := Playlist.videosAux_map_append fetch fuel vs []
      simp only [List.append_nil] at h
      simp [PageChain.items, PageChain.allVideos, h, Playlist.videosAux]
  | more vs t r ih =>
      intro fuel hm hp
      simp only [FetchMatches, Bool.and_eq_true, decide_eq_true_eq] at hm
      obtain ⟨hfetch, hrest⟩ := hm
      simp only [PageChain.pages] at hp
      have hr1 : 1 ≤ r.pages := PageChain.one_le_pages r
      obtain ⟨m, rfl⟩ : ∃ m, fuel = m + 1 := ⟨fuel - 1, by omega⟩
      have hstep :
          Playlist.videosAux fetch (m + 1) [PlaylistItem.ContinuationItemRenderer t] =
            some r.allVideos := by
        simp only [Playlist.videosAux, hfetch]
        exact ih m hrest (by omega)
      simp [PageChain.items, PageChain.allVideos,
        Playlist.videosAux_map_append, hstep]

/-- C8 witness: the pagination theorem at the concrete three-page fixture
(page `["a","b"]` with token `t1`, page `["c"]` with token `t2`, final page
`["d","e"]`): the loop yields the concatenation of all five videos. -/
theorem C8_pagination_concat_witness :
    FetchMatches fetch3 chain3 = true ∧ chain3.pages ≤ 2 + 1 ∧
    Playlist.videosAux fetch3 2 chain3.items = some ["a", "b", "c", "d", "e"] := by
  refine ⟨by decide, by decide, ?_⟩
  exact (C8_pagination_concat fetch3 chain3 2 (by decide) (by decide)).trans (by decide)

theorem collectOps_mid_error (f : String → Option (Except PlayerError CipherOp))
    (pre : List String) (s : String) (post : List String) (e : PlayerError)
    (hpre : ∀ t ∈ pre, ∃ c, f t = some (Except.ok c))
    (hs : f s = some (Except.error e)) :
    collectOps f (pre ++ s :: post) = some (Except.error e) := by
  induction pre with
  | nil => simp [collectOps, hs]
  | cons p ps ih =>
      obtain ⟨c, hc⟩ := hpre p (List.mem_cons_self p ps)
      have hrest := ih (fun t ht => hpre t (List.mem_cons_of_mem p ht))
      simp [collectOps, hc, hrest]

theorem collectOps_ok_inv (f : String → Option (Except PlayerError CipherOp)) :
    ∀ (l : List String) (ops : List CipherOp),
      collectOps f l = some (Except.ok ops) →
      ops.length = l.length ∧ ∀ t ∈ l, ∃ c, f t = some (Except.ok c) := by
  intro l
  induction l with
  | nil =>
      intro ops h
      simp only [collectOps, Option.some_inj] at h
      obtain rfl : ([] : List CipherOp) = ops := by
        simpa using congrArg (fun x => x) h
      simp
  | cons s rest ih =>
      intro ops h
      simp only [collectOps] at h
      cases hf : f s with
      | none => rw [hf] at h; exact absurd h (by simp)
      | some r =>
        cases r with
        | error e => rw [hf] at h; exact absurd h (by simp)
        | ok c =>
          rw [hf] at h
          cases hrest : collectOps f rest with
          | none => rw [hrest] at h; exact absurd h (by simp)
          | some r2 =>
            cases r2 with
            | error e => rw [hrest] at h; exact absurd h (by simp)
            | ok cs =>
              rw [hrest] at h
              simp only [Option.some_inj, Except.ok.injEq] at h
              obtain ⟨hlen, hall⟩ := ih cs hrest
              subst h
              refine ⟨by simp [hlen], fun t ht => ?_⟩
              rcases List.mem_cons.mp ht with rfl | ht2
              · exact ⟨c, hf⟩
              · exact hall t ht2

/-- C9: `CipherPlan::from_body` fails with a hard error and produces no
program whenever the asset text is unparseable: no entry-routine capture
gives `CipherPlanNotFound`; a statement (all statements before it
classifying successfully) whose called function's body cannot be located by
name gives `CipherFunctionNotFound` naming it; a located body matching none
of the three content signatures (`"reverse"`, `"splice"`, `'%'`) gives
`UnknownCipher` carrying the name and the body; and a successful result
classifies every statement of the decipher body into exactly one operation,
one operation per statement. -/
theorem C9_from_body_errors (R : RegexOracle) (body : String) :
    (R.entryCapture body = none →
      CipherPlan.from_body R body = some (Except.error PlayerError.CipherPlanNotFound)) ∧
    (∀ d pre s post name arg,
      R.entryCapture body = some d → stmtsOf d = pre ++ s :: post →
      (∀ t ∈ pre, ∃ c, processStatement R body t = some (Except.ok c)) →
      R.statementCapture s = some (name, arg) →
      R.functionBody body name = none →
      CipherPlan.from_body R body =
        some (Except.error (PlayerError.CipherFunctionNotFound name))) ∧
    (∀ d pre s post name arg b,
      R.entryCapture body = some d → stmtsOf d = pre ++ s :: post →
      (∀ t ∈ pre, ∃ c, processStatement R body t = some (Except.ok c)) →
      R.statementCapture s = some (name, arg) →
      R.functionBody body name = some b →
      strContains b "reverse" = false → strContains b "splice" = false →
      strContains b "%" = false →
      CipherPlan.from_body R body =
        some (Except.error (PlayerError.UnknownCipher name b))) ∧
    (∀ d ops, R.entryCapture body = some d →
      CipherPlan.from_body R body = some (Except.ok ops) →
      ops.length = (stmtsOf d).length ∧
      ∀ t ∈ stmtsOf d, ∃ c, processStatement R body t = some (Except.ok c)) := by
  refine ⟨fun h => by simp [CipherPlan.from_body, h], ?_, ?_, ?_⟩
  · intro d pre s post name arg hentry hsplit hpre hstmt hbody
    have hs : processStatement R body s =
        some (Except.error (PlayerError.CipherFunctionNotFound name)) := by
      simp [processStatement, hstmt, hbody]
    simp [CipherPlan.from_body, hentry, hsplit,
      collectOps_mid_error _ pre s post _ hpre hs]
  · intro d pre s post name arg b hentry hsplit hpre hstmt hbody h1 h2 h3
    have hs : processStatement R body s =
        some (Except.error (PlayerError.UnknownCipher name b)) := by
      simp [processStatement, hstmt, hbody, classifyCipher, h1, h2, h3]
    simp [CipherPlan.from_body, hentry, hsplit,
      collectOps_mid_error _ pre s post _ hpre hs]
  · intro d ops hentry hok
    simp only [CipherPlan.from_body, hentry] at hok
    exact collectOps_ok_inv _ _ _ hok

/-- C9 witness: the extraction theorem at concrete oracles — an asset with no
entry routine (`CipherPlanNotFound`), one whose single statement calls an
unlocatable function (`CipherFunctionNotFound "f1"`), one whose located body
`"var t=0"` matches no signature (`UnknownCipher`), and a well-formed
two-statement asset whose extraction classifies both statements. -/
theorem C9_from_body_errors_witness :
    CipherPlan.from_body R9a "body" = some (Except.error PlayerError.CipherPlanNotFound) ∧
    CipherPlan.from_body R9b "body" =
      some (Except.error (PlayerError.CipherFunctionNotFound "f1")) ∧
    CipherPlan.from_body R9c "body" =
      some (Except.error (PlayerError.UnknownCipher "f1" "var t=0")) ∧
    ([CipherOp.reverse, CipherOp.splice 3].length =
        (stmtsOf "a.r1(x,2);a.s2(x,3)").length ∧
      ∀ t ∈ stmtsOf "a.r1(x,2);a.s2(x,3)",
        ∃ c, processStatement R9d "body" t = some (Except.ok c)) := by
  refine ⟨?_, ?_, ?_, ?_⟩
  · exact (C9_from_body_errors R9a "body").1 rfl
  · exact (C9_from_body_errors R9b "body").2.1 "a.f1(x,2)" [] "a.f1(x,2)" []
      "f1" "2" rfl (by decide) (by simp) rfl rfl
  · exact (C9_from_body_errors R9c "body").2.2.1 "a.f1(x,2)" [] "a.f1(x,2)" []
      "f1" "2" "var t=0" rfl (by decide) (by simp) rfl rfl
      (by decide) (by decide) (by decide)
  · exact (C9_from_body_errors R9d "body").2.2.2 "a.r1(x,2);a.s2(x,3)"
      [CipherOp.reverse, CipherOp.splice 3] rfl (by decide)

end Ytextract
